import Mathlib

/-
  Shallow embedding of `src/hooks/useServerSentEvents.ts`
  (react-server-sent-events): the SSE connection/retry state machine.

  The session state observable by the consumer (status, data, error,
  retryCount) together with the internal refs (eventSourceRef,
  retryTimeoutRef, isMounted) is modelled as a record `SSEState`.
  Each handler of the hook is translated to a pure function
  `SSEState → SSEState × List CallbackEvt`, where the emitted list
  records which consumer notification callbacks the handler invokes.
  JavaScript numbers used for delays are modelled as rationals;
  `Math.random()` is passed in as an explicit draw `rand ∈ [0,1]`.
-/

namespace SSE

/-- `class SSEError extends Error { code?: string }` from the source. -/
structure SSEError where
  message : String
  code : Option String
deriving DecidableEq, Repr

/-- `type SSEStatus = 'CONNECTING' | 'OPEN' | 'CLOSED' | 'ERROR'`. -/
inductive SSEStatus where
  | CONNECTING
  | OPEN
  | CLOSED
  | ERROR
deriving DecidableEq, Repr

/-- `interface RetryConfig` from the source; `shouldRetry` and
`jitterFactor` are optional fields (`Option`), matching the `?:` marks. -/
structure RetryConfig where
  maxAttempts : Nat
  initialDelayMs : ℚ
  maxDelayMs : ℚ
  backoffFactor : ℚ
  shouldRetry : Option (SSEError → Nat → Bool)
  jitterFactor : Option ℚ

/-- `DEFAULT_RETRY_CONFIG` from the source. -/
def DEFAULT_RETRY_CONFIG : RetryConfig :=
  { maxAttempts := 3
    initialDelayMs := 1000
    maxDelayMs := 30000
    backoffFactor := 2
    shouldRetry := some fun _ _ => true
    jitterFactor := some (1/10) }

/-- Which consumer notification callback a handler invokes
(`onMessage` / `onError` / `onOpen` / `onClose`). -/
inductive CallbackEvt where
  | onMessage
  | onError
  | onOpen
  | onClose
deriving DecidableEq, Repr

/-- The session state: the four `useState` fields observable by the
consumer plus the three refs.  `hasEventSource` models
`eventSourceRef.current !== null`; `pendingRetry` models a live (not yet
fired, not cancelled) `retryTimeoutRef` timer, carrying the `attempt`
number the scheduled callback closed over; `isMounted` models
`isMounted.current`. -/
structure SSEState (T : Type) where
  status : SSEStatus
  data : Option T
  error : Option SSEError
  retryCount : Nat
  hasEventSource : Bool
  pendingRetry : Option Nat
  isMounted : Bool
deriving DecidableEq, Repr

/-- The `SSEError` built by `errorHandler`. -/
def connectionError : SSEError :=
  { message := "EventSource failed", code := some "CONNECTION_ERROR" }

/-- The `SSEError` built by `messageHandler` on a decode failure. -/
def parseError : SSEError :=
  { message := "Failed to parse event data", code := some "PARSE_ERROR" }

/-- The `SSEError` built by `attemptReconnect` when the retry budget is
exhausted. -/
def maxRetryError (maxAttempts : Nat) : SSEError :=
  { message := "Failed to connect after " ++ toString maxAttempts ++ " attempts"
    code := some "MAX_RETRY_EXCEEDED" }

/-- `retryConfig.jitterFactor || 0`: the jitter factor with the missing
(or zero) case collapsed to `0`, exactly as the JS `||` does for the
numbers `undefined` and `0`. -/
def jitterOrZero (cfg : RetryConfig) : ℚ :=
  cfg.jitterFactor.getD 0

/-- `calculateRetryDelay` from the source.  `rand` is the value of the
`Math.random()` call, a draw in `[0,1)`:
`baseDelay = initialDelayMs * backoffFactor ^ attempt`,
`jitter = baseDelay * (jitterFactor || 0) * (rand * 2 - 1)`,
result `min (baseDelay + jitter) maxDelayMs`. -/
def calculateRetryDelay (cfg : RetryConfig) (attempt : Nat) (rand : ℚ) : ℚ :=
  let baseDelay := cfg.initialDelayMs * cfg.backoffFactor ^ attempt
  let jitter := baseDelay * jitterOrZero cfg * (rand * 2 - 1)
  min (baseDelay + jitter) cfg.maxDelayMs

/-- `cfg.shouldRetry?.(e, n)` coerced to boolean: JS optional call on a
missing function yields `undefined`, which is falsy. -/
def shouldRetryEval (cfg : RetryConfig) (e : SSEError) (n : Nat) : Bool :=
  match cfg.shouldRetry with
  | some f => f e n
  | none => false

/-- `close` from the source: if a handle exists, close it, null the ref,
set status CLOSED and invoke `onClose`; then `clearTimeout` on the retry
timer (cancelling any pending retry). -/
def close {T : Type} (s : SSEState T) : SSEState T × List CallbackEvt :=
  let p :=
    if s.hasEventSource then
      ({ s with hasEventSource := false, status := SSEStatus.CLOSED },
        [CallbackEvt.onClose])
    else (s, [])
  ({ p.1 with pendingRetry := none }, p.2)

/-- `createEventSource` from the source: close any existing handle,
construct a new `EventSource`, store it as current and set status
CONNECTING. -/
def createEventSource {T : Type} (s : SSEState T) : SSEState T :=
  { s with hasEventSource := true, status := SSEStatus.CONNECTING }

/-- `attemptReconnect` from the source: no-op when unmounted; when
`attempt >= maxAttempts` set status ERROR with a MAX_RETRY_EXCEEDED
error and schedule nothing; otherwise schedule a retry timer for this
attempt (the delay itself is computed by `calculateRetryDelay` but does
not affect the state transition). -/
def attemptReconnect {T : Type} (cfg : RetryConfig) (attempt : Nat)
    (s : SSEState T) : SSEState T × List CallbackEvt :=
  if !s.isMounted then (s, [])
  else if cfg.maxAttempts ≤ attempt then
    ({ s with status := SSEStatus.ERROR
              error := some (maxRetryError cfg.maxAttempts) }, [])
  else
    ({ s with pendingRetry := some attempt }, [])

/-- The retry timer callback from `attemptReconnect` firing: if still
mounted, set `retryCount := attempt + 1` and re-open via
`createEventSource`; the fired timer is consumed either way. -/
def fireRetry {T : Type} (s : SSEState T) : SSEState T :=
  match s.pendingRetry with
  | none => s
  | some attempt =>
    if !s.isMounted then { s with pendingRetry := none }
    else createEventSource
      { s with retryCount := attempt + 1, pendingRetry := none }

/-- `messageHandler` from the source.  `parsed` is the outcome of
`options.parseData ? options.parseData(event.data) : JSON.parse(event.data)`:
`some v` when decoding succeeded with value `v`, `none` when it threw. -/
def messageHandler {T : Type} (parsed : Option T) (s : SSEState T) :
    SSEState T × List CallbackEvt :=
  if !s.isMounted then (s, [])
  else
    match parsed with
    | some v => ({ s with data := some v }, [CallbackEvt.onMessage])
    | none => ({ s with error := some parseError }, [CallbackEvt.onError])

/-- `errorHandler` from the source: no-op when unmounted; otherwise set
status ERROR and error CONNECTION_ERROR, invoke `onError`, then consult
`shouldRetry` with the current `retryCount` and, when it returns true,
call `attemptReconnect retryCount`. -/
def errorHandler {T : Type} (cfg : RetryConfig) (s : SSEState T) :
    SSEState T × List CallbackEvt :=
  if !s.isMounted then (s, [])
  else
    let s1 := { s with status := SSEStatus.ERROR, error := some connectionError }
    if shouldRetryEval cfg connectionError s.retryCount then
      let p := attemptReconnect cfg s.retryCount s1
      (p.1, CallbackEvt.onError :: p.2)
    else (s1, [CallbackEvt.onError])

/-- `openHandler` from the source: no-op when unmounted; otherwise set
status OPEN, clear the error, reset `retryCount` to 0 and invoke
`onOpen`. -/
def openHandler {T : Type} (s : SSEState T) : SSEState T × List CallbackEvt :=
  if !s.isMounted then (s, [])
  else
    ({ s with status := SSEStatus.OPEN, error := none, retryCount := 0 },
      [CallbackEvt.onOpen])

/-- `reconnect` from the source: `setRetryCount(0)` then
`createEventSource()` and `setupEventHandlers(sse)` (the latter only
binds listeners and touches no session state).  Note: it does not touch
the retry timer. -/
def reconnect {T : Type} (s : SSEState T) : SSEState T × List CallbackEvt :=
  (createEventSource { s with retryCount := 0 }, [])

/-- The events the session reacts to: the three transport signals
delivered to the bound handlers, the two consumer commands, and the
retry timer firing. -/
inductive Evt (T : Type) where
  | openSig : Evt T
  | message : Option T → Evt T
  | errorSig : Evt T
  | closeCmd : Evt T
  | reconnectCmd : Evt T
  | retryTimer : Evt T
deriving DecidableEq

/-- Environment guard: transport signals are only delivered while a
current live handle exists (a closed / discarded `EventSource` emits
nothing), and the retry timer can only fire while scheduled.  Commands
are always available. -/
def canFire {T : Type} : Evt T → SSEState T → Bool
  | Evt.openSig, s => s.hasEventSource
  | Evt.message _, s => s.hasEventSource
  | Evt.errorSig, s => s.hasEventSource
  | Evt.closeCmd, _ => true
  | Evt.reconnectCmd, _ => true
  | Evt.retryTimer, s => s.pendingRetry.isSome

/-- Dispatch an event to the handler the source binds for it. -/
def applyEvt {T : Type} (cfg : RetryConfig) (e : Evt T) (s : SSEState T) :
    SSEState T × List CallbackEvt :=
  match e with
  | Evt.openSig => openHandler s
  | Evt.message parsed => messageHandler parsed s
  | Evt.errorSig => errorHandler cfg s
  | Evt.closeCmd => close s
  | Evt.reconnectCmd => reconnect s
  | Evt.retryTimer => (fireRetry s, [])

/-- The `useState` initial values of the hook, with the mount flag set
by the effect (`isMounted.current = true`). -/
def mountBase (T : Type) : SSEState T :=
  { status := SSEStatus.CLOSED
    data := none
    error := none
    retryCount := 0
    hasEventSource := false
    pendingRetry := none
    isMounted := true }

/-- The session state right after the mount effect ran
`createEventSource()` and bound the handlers: the first state the
subscription presents. -/
def initState (T : Type) : SSEState T :=
  createEventSource (mountBase T)

/-- States of a live session: the post-mount state and everything
produced from it by deliverable events. -/
inductive Reachable {T : Type} (cfg : RetryConfig) : SSEState T → Prop where
  | init : Reachable cfg (initState T)
  | step (s : SSEState T) (e : Evt T) : Reachable cfg s →
      canFire e s = true → Reachable cfg (applyEvt cfg e s).1

/-- A retry configuration whose `maxDelayMs` is below `initialDelayMs`,
with zero jitter; used to separate the clamp from the jitter floor. -/
def smallMaxConfig : RetryConfig :=
  { maxAttempts := 3
    initialDelayMs := 1000
    maxDelayMs := 500
    backoffFactor := 2
    shouldRetry := some fun _ _ => true
    jitterFactor := some 0 }

/-- A configuration whose `shouldRetry` predicate always refuses. -/
def noRetryConfig : RetryConfig :=
  { maxAttempts := 3
    initialDelayMs := 1000
    maxDelayMs := 30000
    backoffFactor := 2
    shouldRetry := some fun _ _ => false
    jitterFactor := some 0 }

/-- A configuration with an exhausted retry budget (`maxAttempts = 0`)
and an always-refusing `shouldRetry` predicate. -/
def noRetryZeroMaxConfig : RetryConfig :=
  { maxAttempts := 0
    initialDelayMs := 1000
    maxDelayMs := 30000
    backoffFactor := 2
    shouldRetry := some fun _ _ => false
    jitterFactor := some 0 }

/-- The reachable state obtained from the post-mount state by an open
signal followed by a message whose payload fails to decode. -/
def openParseErrState : SSEState String :=
  (applyEvt DEFAULT_RETRY_CONFIG (Evt.message none)
    (applyEvt DEFAULT_RETRY_CONFIG Evt.openSig (initState String)).1).1

/-- A session state whose attempt count has reached the default retry
budget (`retryCount = 3 = maxAttempts`). -/
def exhaustedState : SSEState String :=
  { status := SSEStatus.ERROR
    data := none
    error := some connectionError
    retryCount := 3
    hasEventSource := true
    pendingRetry := none
    isMounted := true }

/-- No event other than the open signal ever turns `error` from present
to absent: only `openHandler` clears the error implicitly. -/
theorem applyEvt_error_none {T : Type} (cfg : RetryConfig) (e : Evt T)
    (s : SSEState T) (hne : e ≠ Evt.openSig)
    (h : (applyEvt cfg e s).1.error = none) : s.error = none := by
  cases e with
  | openSig => exact absurd rfl hne
  | message parsed =>
    cases hm : s.isMounted <;> cases parsed <;> simp_all [applyEvt, messageHandler]
  | errorSig =>
    cases hm : s.isMounted
    · simp_all [applyEvt, errorHandler]
    · by_cases hr : shouldRetryEval cfg connectionError s.retryCount = true
      · by_cases hmax : cfg.maxAttempts ≤ s.retryCount
        · simp_all [applyEvt, errorHandler, attemptReconnect]
        · simp_all [applyEvt, errorHandler, attemptReconnect, if_neg hmax]
      · simp_all [applyEvt, errorHandler]
  | closeCmd =>
    cases hs : s.hasEventSource <;> simp_all [applyEvt, close]
  | reconnectCmd =>
    simp_all [applyEvt, reconnect, createEventSource]
  | retryTimer =>
    cases hp : s.pendingRetry with
    | none => simp_all [applyEvt, fireRetry]
    | some a =>
      cases hm : s.isMounted <;>
        simp_all [applyEvt, fireRetry, createEventSource]

/-- No event other than the open signal and the explicit `reconnect`
command ever turns `retryCount` from non-zero to zero: only
`openHandler` resets the attempt count implicitly. -/
theorem applyEvt_retryCount_zero {T : Type} (cfg : RetryConfig) (e : Evt T)
    (s : SSEState T) (hne : e ≠ Evt.openSig) (hnr : e ≠ Evt.reconnectCmd)
    (h : (applyEvt cfg e s).1.retryCount = 0) : s.retryCount = 0 := by
  cases e with
  | openSig => exact absurd rfl hne
  | message parsed =>
    cases hm : s.isMounted <;> cases parsed <;> simp_all [applyEvt, messageHandler]
  | errorSig =>
    cases hm : s.isMounted
    · simp_all [applyEvt, errorHandler]
    · by_cases hr : shouldRetryEval cfg connectionError s.retryCount = true
      · by_cases hmax : cfg.maxAttempts ≤ s.retryCount <;>
          simp_all [applyEvt, errorHandler, attemptReconnect]
      · simp_all [applyEvt, errorHandler]
  | closeCmd =>
    cases hs : s.hasEventSource <;> simp_all [applyEvt, close]
  | reconnectCmd => exact absurd rfl hnr
  | retryTimer =>
    cases hp : s.pendingRetry with
    | none => simp_all [applyEvt, fireRetry]
    | some a =>
      cases hm : s.isMounted <;>
        simp_all [applyEvt, fireRetry, createEventSource]

/-- No event other than the open signal can move the status to OPEN. -/
theorem applyEvt_status_not_open {T : Type} (cfg : RetryConfig) (e : Evt T)
    (s : SSEState T) (hne : e ≠ Evt.openSig)
    (hst : s.status ≠ SSEStatus.OPEN) :
    (applyEvt cfg e s).1.status ≠ SSEStatus.OPEN := by
  cases e with
  | openSig => exact absurd rfl hne
  | message parsed =>
    cases hm : s.isMounted <;> cases parsed <;> simp_all [applyEvt, messageHandler]
  | errorSig =>
    cases hm : s.isMounted
    · simp_all [applyEvt, errorHandler]
    · by_cases hr : shouldRetryEval cfg connectionError s.retryCount = true
      · by_cases hmax : cfg.maxAttempts ≤ s.retryCount
        · simp_all [applyEvt, errorHandler, attemptReconnect]
        · simp_all [applyEvt, errorHandler, attemptReconnect, if_neg hmax]
      · simp_all [applyEvt, errorHandler]
  | closeCmd =>
    cases hs : s.hasEventSource <;> simp_all [applyEvt, close]
  | reconnectCmd =>
    simp_all [applyEvt, reconnect, createEventSource]
  | retryTimer =>
    cases hp : s.pendingRetry with
    | none => simp_all [applyEvt, fireRetry]
    | some a =>
      cases hm : s.isMounted <;>
        simp_all [applyEvt, fireRetry, createEventSource]

/-- C1: without jitter the delay for attempt `n` is exactly
`min (initialDelayMs * backoffFactor ^ n) maxDelayMs`; with jitter
factor `j ∈ [0,1]` and any draw, the delay lies between
`min (base * (1 - j)) maxDelayMs` and `min (base * (1 + j)) maxDelayMs`
for `base = initialDelayMs * backoffFactor ^ n` — the clamp to
`maxDelayMs` being applied after the jitter term is added. -/
theorem calculateRetryDelay_backoff_bounds (cfg : RetryConfig) (n : Nat) (rand : ℚ)
    (hinit : 0 ≤ cfg.initialDelayMs) (hback : 0 ≤ cfg.backoffFactor)
    (hj0 : 0 ≤ jitterOrZero cfg) (hj1 : jitterOrZero cfg ≤ 1)
    (hr0 : 0 ≤ rand) (hr1 : rand ≤ 1) :
    (jitterOrZero cfg = 0 →
      calculateRetryDelay cfg n rand
        = min (cfg.initialDelayMs * cfg.backoffFactor ^ n) cfg.maxDelayMs) ∧
    min (cfg.initialDelayMs * cfg.backoffFactor ^ n * (1 - jitterOrZero cfg))
        cfg.maxDelayMs
      ≤ calculateRetryDelay cfg n rand ∧
    calculateRetryDelay cfg n rand
      ≤ min (cfg.initialDelayMs * cfg.backoffFactor ^ n * (1 + jitterOrZero cfg))
          cfg.maxDelayMs := by
  set base := cfg.initialDelayMs * cfg.backoffFactor ^ n with hbase
  set j := jitterOrZero cfg with hj
  have hcalc : calculateRetryDelay cfg n rand
      = min (base + base * j * (rand * 2 - 1)) cfg.maxDelayMs := rfl
  have hbnn : 0 ≤ base := mul_nonneg hinit (pow_nonneg hback n)
  have hjb : 0 ≤ base * j := mul_nonneg hbnn hj0
  have hlo : base * (1 - j) ≤ base + base * j * (rand * 2 - 1) := by
    nlinarith [mul_nonneg hjb hr0]
  have hhi : base + base * j * (rand * 2 - 1) ≤ base * (1 + j) := by
    nlinarith [mul_nonneg hjb (sub_nonneg.mpr hr1)]
  refine ⟨?_, ?_, ?_⟩
  · intro h0
    rw [hcalc, h0]
    simp
  · rw [hcalc]
    exact min_le_min hlo le_rfl
  · rw [hcalc]
    exact min_le_min hhi le_rfl

/-- Witness for C1 at the default configuration, attempt 0,
`Math.random() = 1/2` (zero jitter term). -/
theorem calculateRetryDelay_backoff_bounds_witness :
    (0:ℚ) ≤ DEFAULT_RETRY_CONFIG.initialDelayMs ∧
    min (DEFAULT_RETRY_CONFIG.initialDelayMs * DEFAULT_RETRY_CONFIG.backoffFactor ^ 0
        * (1 - jitterOrZero DEFAULT_RETRY_CONFIG)) DEFAULT_RETRY_CONFIG.maxDelayMs
      ≤ calculateRetryDelay DEFAULT_RETRY_CONFIG 0 (1/2) := by
  refine ⟨by norm_num [DEFAULT_RETRY_CONFIG], ?_⟩
  exact (calculateRetryDelay_backoff_bounds DEFAULT_RETRY_CONFIG 0 (1/2)
    (by norm_num [DEFAULT_RETRY_CONFIG]) (by norm_num [DEFAULT_RETRY_CONFIG])
    (by norm_num [jitterOrZero, DEFAULT_RETRY_CONFIG])
    (by norm_num [jitterOrZero, DEFAULT_RETRY_CONFIG])
    (by norm_num) (by norm_num)).2.1

/-- C10 (counterexample): with `maxDelayMs = 500 < 1000 = initialDelayMs`
and jitter factor 0 — a configuration satisfying every hypothesis the
claim states — the computed delay for attempt 0 is 500, strictly below
`baseDelay * (1 - jitterFactor) = 1000`, so the delay is not bounded
below by `baseDelay * (1 - jitterFactor)`. -/
theorem calculateRetryDelay_below_jitter_floor :
    calculateRetryDelay smallMaxConfig 0 (1/2)
      < smallMaxConfig.initialDelayMs * smallMaxConfig.backoffFactor ^ 0
        * (1 - jitterOrZero smallMaxConfig) := by
  norm_num [calculateRetryDelay, smallMaxConfig, jitterOrZero, min_def]

/-- C10 (amended): the delay is bounded below by
`min (baseDelay * (1 - jitterFactor)) maxDelayMs`; hence it is never
negative provided `maxDelayMs ≥ 0`, with no explicit floor at zero
needed; a missing `jitterFactor` is treated as jitter 0, making the
delay exactly `min baseDelay maxDelayMs`. -/
theorem calculateRetryDelay_lower_floor (cfg : RetryConfig) (n : Nat) (rand : ℚ)
    (hinit : 0 ≤ cfg.initialDelayMs) (hback : 0 ≤ cfg.backoffFactor)
    (hj0 : 0 ≤ jitterOrZero cfg) (hj1 : jitterOrZero cfg ≤ 1)
    (hr0 : 0 ≤ rand) (hr1 : rand ≤ 1) :
    min (cfg.initialDelayMs * cfg.backoffFactor ^ n * (1 - jitterOrZero cfg))
        cfg.maxDelayMs
      ≤ calculateRetryDelay cfg n rand ∧
    (0 ≤ cfg.maxDelayMs → 0 ≤ calculateRetryDelay cfg n rand) ∧
    (cfg.jitterFactor = none →
      calculateRetryDelay cfg n rand
        = min (cfg.initialDelayMs * cfg.backoffFactor ^ n) cfg.maxDelayMs) := by
  set base := cfg.initialDelayMs * cfg.backoffFactor ^ n with hbase
  set j := jitterOrZero cfg with hj
  have hcalc : calculateRetryDelay cfg n rand
      = min (base + base * j * (rand * 2 - 1)) cfg.maxDelayMs := rfl
  have hbnn : 0 ≤ base := mul_nonneg hinit (pow_nonneg hback n)
  have hjb : 0 ≤ base * j := mul_nonneg hbnn hj0
  have hlo : base * (1 - j) ≤ base + base * j * (rand * 2 - 1) := by
    nlinarith [mul_nonneg hjb hr0]
  refine ⟨?_, ?_, ?_⟩
  · rw [hcalc]
    exact min_le_min hlo le_rfl
  · intro hmax
    rw [hcalc]
    refine le_min ?_ hmax
    nlinarith [mul_nonneg hbnn (sub_nonneg.mpr hj1)]
  · intro hnone
    have h0 : j = 0 := by
      rw [hj, jitterOrZero, hnone]
      rfl
    rw [hcalc, h0]
    simp

/-- Witness for the amended C10 at `smallMaxConfig`, attempt 0,
`Math.random() = 1/2`: the delay is non-negative. -/
theorem calculateRetryDelay_lower_floor_witness :
    (0:ℚ) ≤ smallMaxConfig.maxDelayMs ∧
    0 ≤ calculateRetryDelay smallMaxConfig 0 (1/2) := by
  refine ⟨by norm_num [smallMaxConfig], ?_⟩
  exact (calculateRetryDelay_lower_floor smallMaxConfig 0 (1/2)
    (by norm_num [smallMaxConfig]) (by norm_num [smallMaxConfig])
    (by norm_num [jitterOrZero, smallMaxConfig])
    (by norm_num [jitterOrZero, smallMaxConfig])
    (by norm_num) (by norm_num)).2.1 (by norm_num [smallMaxConfig])

/-- C2 (amended): when an error signal is handled with the attempt count
at or past `maxAttempts` and the `shouldRetry` predicate — which the
code consults first — returning true, the session moves to status ERROR
with a MAX_RETRY_EXCEEDED error (a kind distinct from CONNECTION_ERROR
and PARSE_ERROR) and no further retry is scheduled. -/
theorem errorHandler_budget_exhausted {T : Type} (cfg : RetryConfig)
    (s : SSEState T) (hm : s.isMounted = true)
    (hr : shouldRetryEval cfg connectionError s.retryCount = true)
    (hmax : cfg.maxAttempts ≤ s.retryCount) :
    (errorHandler cfg s).1.status = SSEStatus.ERROR ∧
    (errorHandler cfg s).1.error = some (maxRetryError cfg.maxAttempts) ∧
    (maxRetryError cfg.maxAttempts).code = some "MAX_RETRY_EXCEEDED" ∧
    (maxRetryError cfg.maxAttempts).code ≠ connectionError.code ∧
    (maxRetryError cfg.maxAttempts).code ≠ parseError.code ∧
    (errorHandler cfg s).1.pendingRetry = s.pendingRetry ∧
    (errorHandler cfg s).2 = [CallbackEvt.onError] := by
  refine ⟨?_, ?_, rfl, by simp [maxRetryError, connectionError],
    by simp [maxRetryError, parseError], ?_, ?_⟩ <;>
    simp [errorHandler, attemptReconnect, hm, hr, hmax]

/-- Witness for the amended C2: default configuration, a mounted state
with `retryCount = 3 = maxAttempts`. -/
theorem errorHandler_budget_exhausted_witness :
    exhaustedState.isMounted = true ∧
    (errorHandler DEFAULT_RETRY_CONFIG exhaustedState).1.error
      = some (maxRetryError DEFAULT_RETRY_CONFIG.maxAttempts) :=
  ⟨rfl, (errorHandler_budget_exhausted DEFAULT_RETRY_CONFIG exhaustedState
    rfl rfl (by decide)).2.1⟩

/-- C2 (counterexample): with `maxAttempts = 0` already reached and a
`shouldRetry` predicate returning false, the handled error signal leaves
the error at CONNECTION_ERROR — not MAX_RETRY_EXCEEDED — because the
code consults `shouldRetry` before the `maxAttempts` check, contrary to
the claimed policy ordering. -/
theorem errorHandler_budget_exhausted_cex :
    noRetryZeroMaxConfig.maxAttempts ≤ (initState String).retryCount ∧
    (initState String).isMounted = true ∧
    (errorHandler noRetryZeroMaxConfig (initState String)).1.error
      = some connectionError ∧
    connectionError.code ≠ some "MAX_RETRY_EXCEEDED" :=
  ⟨by decide, rfl, rfl, by decide⟩

/-- C3: the open handler on a mounted session sets status OPEN, clears
the error, resets `retryCount` to 0 and invokes `onOpen`; and no other
event clears the error, nor (reconnect apart, which resets explicitly)
zeroes a non-zero `retryCount`. -/
theorem openHandler_open_effect {T : Type} (s : SSEState T)
    (hm : s.isMounted = true) :
    (openHandler s).1.status = SSEStatus.OPEN ∧
    (openHandler s).1.error = none ∧
    (openHandler s).1.retryCount = 0 ∧
    (openHandler s).2 = [CallbackEvt.onOpen] ∧
    (∀ (cfg : RetryConfig) (e : Evt T) (u : SSEState T), e ≠ Evt.openSig →
      (applyEvt cfg e u).1.error = none → u.error = none) ∧
    (∀ (cfg : RetryConfig) (e : Evt T) (u : SSEState T), e ≠ Evt.openSig →
      e ≠ Evt.reconnectCmd →
      (applyEvt cfg e u).1.retryCount = 0 → u.retryCount = 0) := by
  refine ⟨?_, ?_, ?_, ?_, applyEvt_error_none, applyEvt_retryCount_zero⟩ <;>
    simp [openHandler, hm]

/-- Witness for C3 at the post-mount state. -/
theorem openHandler_open_effect_witness :
    (initState String).isMounted = true ∧
    (openHandler (initState String)).1.retryCount = 0 :=
  ⟨rfl, (openHandler_open_effect (initState String) rfl).2.2.1⟩

/-- C4: an error signal handled while `shouldRetry` refuses schedules
nothing, leaves `retryCount` at its pre-error value, and leaves the
session in status ERROR with the triggering CONNECTION_ERROR retained. -/
theorem errorHandler_shouldRetry_false {T : Type} (cfg : RetryConfig)
    (s : SSEState T) (hm : s.isMounted = true)
    (hr : shouldRetryEval cfg connectionError s.retryCount = false) :
    (errorHandler cfg s).1.status = SSEStatus.ERROR ∧
    (errorHandler cfg s).1.error = some connectionError ∧
    (errorHandler cfg s).1.retryCount = s.retryCount ∧
    (errorHandler cfg s).1.pendingRetry = s.pendingRetry ∧
    (errorHandler cfg s).2 = [CallbackEvt.onError] := by
  simp [errorHandler, hm, hr]

/-- Witness for C4 with an always-refusing predicate at the post-mount
state. -/
theorem errorHandler_shouldRetry_false_witness :
    shouldRetryEval noRetryConfig connectionError (initState String).retryCount
      = false ∧
    (errorHandler noRetryConfig (initState String)).1.retryCount
      = (initState String).retryCount :=
  ⟨rfl, (errorHandler_shouldRetry_false noRetryConfig (initState String)
    rfl rfl).2.2.1⟩

/-- C5 (amended): `reconnect()` resets `retryCount` to 0 and immediately
(no backoff delay) opens a new connection and binds handlers — status
CONNECTING with a live handle — but it does not cancel a pending
scheduled retry: the retry timer is left exactly as it was. -/
theorem reconnect_effect {T : Type} (s : SSEState T) :
    (reconnect s).1.retryCount = 0 ∧
    (reconnect s).1.status = SSEStatus.CONNECTING ∧
    (reconnect s).1.hasEventSource = true ∧
    (reconnect s).1.pendingRetry = s.pendingRetry ∧
    (reconnect s).2 = [] := by
  simp [reconnect, createEventSource]

/-- C5 (counterexample): after an error under the default configuration
schedules a retry, calling `reconnect()` leaves that pending retry in
place and it can still fire afterwards — it is not cancelled. -/
theorem reconnect_keeps_pending :
    (errorHandler DEFAULT_RETRY_CONFIG (initState String)).1.pendingRetry
      = some 0 ∧
    (reconnect
        (errorHandler DEFAULT_RETRY_CONFIG (initState String)).1).1.pendingRetry
      = some 0 ∧
    canFire Evt.retryTimer
      (reconnect (errorHandler DEFAULT_RETRY_CONFIG (initState String)).1).1
      = true :=
  ⟨rfl, rfl, rfl⟩

/-- C6: a message whose payload fails decoding sets the error to the
PARSE_ERROR decode error and invokes `onError`, while status and the
previously held data are left untouched. -/
theorem messageHandler_decode_failure {T : Type} (s : SSEState T)
    (hm : s.isMounted = true) :
    (messageHandler (none : Option T) s).1.error = some parseError ∧
    parseError.code = some "PARSE_ERROR" ∧
    (messageHandler (none : Option T) s).1.status = s.status ∧
    (messageHandler (none : Option T) s).1.data = s.data ∧
    (messageHandler (none : Option T) s).2 = [CallbackEvt.onError] := by
  simp [messageHandler, hm, parseError]

/-- Witness for C6 at the post-mount state. -/
theorem messageHandler_decode_failure_witness :
    (initState String).isMounted = true ∧
    (messageHandler (none : Option String) (initState String)).1.error
      = some parseError :=
  ⟨rfl, (messageHandler_decode_failure (initState String) rfl).1⟩

/-- C7: `close()` on a live handle closes and discards it, sets status
CLOSED, invokes the close callback and cancels any pending retry; a
second `close()` right after changes nothing and invokes no callback. -/
theorem close_idempotent {T : Type} (s : SSEState T)
    (h : s.hasEventSource = true) :
    (close s).1 = { s with hasEventSource := false
                           status := SSEStatus.CLOSED
                           pendingRetry := none } ∧
    (close s).2 = [CallbackEvt.onClose] ∧
    close (close s).1 = ((close s).1, []) := by
  refine ⟨?_, ?_, ?_⟩ <;> simp [close, h]

/-- Witness for C7 at the post-mount state. -/
theorem close_idempotent_witness :
    (initState String).hasEventSource = true ∧
    (close (initState String)).2 = [CallbackEvt.onClose] :=
  ⟨rfl, (close_idempotent (initState String) rfl).2.1⟩

/-- C8 (amended): in every reachable session state, status OPEN implies
a live connection handle exists and the error is either absent or the
PARSE_ERROR decode error — a decode failure can leave an error visible
while the status stays OPEN. -/
theorem open_status_invariant {T : Type} (cfg : RetryConfig) (s : SSEState T)
    (h : Reachable cfg s) :
    s.status = SSEStatus.OPEN →
      s.hasEventSource = true ∧
      (s.error = none ∨ s.error = some parseError) := by
  induction h with
  | init =>
    intro hst
    simp [initState, createEventSource, mountBase] at hst
  | step s' e hr hc ih =>
    cases e with
    | openSig =>
      cases hm : s'.isMounted
      · simpa [applyEvt, openHandler, hm] using ih
      · intro _
        simp only [canFire] at hc
        simp [applyEvt, openHandler, hm]
        exact hc
    | message parsed =>
      cases hm : s'.isMounted
      · simpa [applyEvt, messageHandler, hm] using ih
      · cases parsed with
        | some v =>
          intro hst
          have hst' : s'.status = SSEStatus.OPEN := by
            simpa [applyEvt, messageHandler, hm] using hst
          have hh := ih hst'
          exact ⟨by simpa [applyEvt, messageHandler, hm] using hh.1,
                 by simpa [applyEvt, messageHandler, hm] using hh.2⟩
        | none =>
          intro hst
          have hst' : s'.status = SSEStatus.OPEN := by
            simpa [applyEvt, messageHandler, hm] using hst
          have hh := ih hst'
          refine ⟨by simpa [applyEvt, messageHandler, hm] using hh.1, Or.inr ?_⟩
          simp [applyEvt, messageHandler, hm]
    | errorSig =>
      cases hm : s'.isMounted
      · simpa [applyEvt, errorHandler, hm] using ih
      · intro hst
        exfalso
        by_cases hretry : shouldRetryEval cfg connectionError s'.retryCount = true
        · by_cases hmax : cfg.maxAttempts ≤ s'.retryCount
          · simp [applyEvt, errorHandler, attemptReconnect, hm, hretry, hmax] at hst
          · simp [applyEvt, errorHandler, attemptReconnect, hm, hretry,
              if_neg hmax] at hst
        · simp [applyEvt, errorHandler, hm, hretry] at hst
    | closeCmd =>
      cases hs : s'.hasEventSource
      · intro hst
        have hst' : s'.status = SSEStatus.OPEN := by
          simpa [applyEvt, close, hs] using hst
        have hh := ih hst'
        rw [hs] at hh
        exact absurd hh.1 (by simp)
      · intro hst
        exfalso
        simp [applyEvt, close, hs] at hst
    | reconnectCmd =>
      intro hst
      exfalso
      simp [applyEvt, reconnect, createEventSource] at hst
    | retryTimer =>
      cases hp : s'.pendingRetry with
      | none => simpa [applyEvt, fireRetry, hp] using ih
      | some a =>
        cases hm : s'.isMounted
        · intro hst
          have hst' : s'.status = SSEStatus.OPEN := by
            simpa [applyEvt, fireRetry, hp, hm] using hst
          have hh := ih hst'
          exact ⟨by simpa [applyEvt, fireRetry, hp, hm] using hh.1,
                 by simpa [applyEvt, fireRetry, hp, hm] using hh.2⟩
        · intro hst
          exfalso
          simp [applyEvt, fireRetry, createEventSource, hp, hm] at hst

/-- Witness for the amended C8 at the reachable OPEN state holding a
decode error. -/
theorem open_status_invariant_witness :
    openParseErrState.hasEventSource = true ∧
    (openParseErrState.error = none ∨ openParseErrState.error = some parseError) :=
  open_status_invariant DEFAULT_RETRY_CONFIG openParseErrState
    (Reachable.step _ (Evt.message none)
      (Reachable.step _ Evt.openSig Reachable.init rfl) rfl) rfl

/-- C8 (counterexample): a reachable state — open signal, then a message
that fails to decode — has status OPEN together with a present error,
refuting "status OPEN implies error is absent". -/
theorem open_with_parse_error_reachable :
    Reachable DEFAULT_RETRY_CONFIG openParseErrState ∧
    openParseErrState.status = SSEStatus.OPEN ∧
    openParseErrState.error ≠ none :=
  ⟨Reachable.step _ (Evt.message none)
      (Reachable.step _ Evt.openSig Reachable.init rfl) rfl,
   rfl, by decide⟩

/-- C9: the first state the subscription presents has status CONNECTING
(opening a connection sets CONNECTING), no event other than the open
signal ever produces status OPEN, and the open handler yields status
OPEN with no error and `retryCount = 0`. -/
theorem session_initial_connecting {T : Type} (cfg : RetryConfig) :
    (initState T).status = SSEStatus.CONNECTING ∧
    (∀ s : SSEState T, (createEventSource s).status = SSEStatus.CONNECTING) ∧
    (∀ (e : Evt T) (s : SSEState T), e ≠ Evt.openSig →
      s.status ≠ SSEStatus.OPEN →
      (applyEvt cfg e s).1.status ≠ SSEStatus.OPEN) ∧
    (∀ s : SSEState T, s.isMounted = true →
      (openHandler s).1.status = SSEStatus.OPEN ∧
      (openHandler s).1.error = none ∧
      (openHandler s).1.retryCount = 0) := by
  refine ⟨rfl, fun s => rfl, applyEvt_status_not_open cfg, fun s hm => ?_⟩
  simp [openHandler, hm]

/-- Witness for C9: the post-mount state is CONNECTING, an error signal
there does not yield OPEN, the open signal does. -/
theorem session_initial_connecting_witness :
    (initState String).status = SSEStatus.CONNECTING ∧
    (applyEvt DEFAULT_RETRY_CONFIG Evt.errorSig (initState String)).1.status
      ≠ SSEStatus.OPEN ∧
    (openHandler (initState String)).1.status = SSEStatus.OPEN := by
  refine ⟨(session_initial_connecting DEFAULT_RETRY_CONFIG).1, ?_, ?_⟩
  · exact (session_initial_connecting DEFAULT_RETRY_CONFIG).2.2.1 Evt.errorSig
      (initState String) (by decide) (by decide)
  · exact ((session_initial_connecting DEFAULT_RETRY_CONFIG).2.2.2
      (initState String) rfl).1

end SSE
